import Mathlib

/-!
Verification development for the Contact-Hub repository: a shallow embedding
of its contact validation pipeline (AddContactModal in SearchBar.tsx), its
mock contact store (lib/api/contacts), and its list projection
(ContactList.tsx), together with theorems checking the natural-language
specification against this embedding.

Strings are modelled as `List Char` so that every operation is a structurally
recursive computable function.  JavaScript's `toLowerCase` is modelled as
ASCII lowercasing and the `\s` character class / `trim` whitespace set is
modelled by `isJsSpace` below; no claim in scope depends on non-ASCII casing
or on exotic Unicode whitespace.
-/

namespace ContactHub

/-- Strings of the embedded program: lists of characters. -/
abbrev Str := List Char

/-- Model of the JavaScript whitespace class `\s` (and of the set trimmed by
`String.prototype.trim`), restricted to the ASCII whitespace characters plus
NBSP; the claims under verification involve no other whitespace. -/
def isJsSpace (c : Char) : Bool :=
  c = ' ' || c = '\t' || c = '\n' || c = '\r' || c = '\x0b' || c = '\x0c' || c = ' '

/-- ASCII letter, the `[a-zA-Z]` character class. -/
def isAsciiLetter (c : Char) : Bool :=
  ('a' ≤ c && c ≤ 'z') || ('A' ≤ c && c ≤ 'Z')

/-- Model of JavaScript `String.prototype.split` with a one-character
separator: `splitOnChar '@' "a@b" = ["a", "b"]`, `splitOnChar '@' "" = [""]`. -/
def splitOnChar (sep : Char) : Str → List Str
  | [] => [[]]
  | c :: rest =>
    let r := splitOnChar sep rest
    if c = sep then [] :: r
    else
      match r with
      | [] => [[c]]
      | h :: t => (c :: h) :: t

/-- Model of `String.prototype.toLowerCase` (ASCII). -/
def toLowerStr (s : Str) : Str := s.map Char.toLower

/-- Model of `String.prototype.trim`: drop leading and trailing whitespace. -/
def trimStr (s : Str) : Str :=
  ((s.dropWhile isJsSpace).reverse.dropWhile isJsSpace).reverse

/-- Does `hay` start with `needle`? -/
def listStartsWith : Str → Str → Bool
  | _, [] => true
  | [], _ :: _ => false
  | h :: hs, n :: ns => (h = n) && listStartsWith hs ns

/-- Model of `String.prototype.includes`: does `hay` contain `needle` as a
contiguous substring? -/
def containsStr (hay needle : Str) : Bool :=
  listStartsWith hay needle ||
    match hay with
    | [] => false
    | _ :: t => containsStr t needle

/-- Lexicographic (character-code) order on strings, the model used for
`String.prototype.localeCompare`-based comparators: `lexLe a b` models
`a.localeCompare(b) <= 0`.  (The real `localeCompare` is locale-aware; the
specification itself describes the comparison as lexicographic, and the
claims in scope do not depend on locale-specific collation.) -/
def lexLe : Str → Str → Bool
  | [], _ => true
  | _ :: _, [] => false
  | a :: as, b :: bs => if a = b then lexLe as bs else decide (a < b)

/-! ## Validation engine (AddContactModal in SearchBar.tsx) -/

/-- The `typoDomains` table of `validateEmail`:
known full-domain typos, `"second-level.top-level"` keys. -/
def typoDomains (d : Str) : Option Str :=
  if d = "gamil.com".data then some ("gmail.com".data)
  else if d = "gmial.com".data then some ("gmail.com".data)
  else if d = "gmai.com".data then some ("gmail.com".data)
  else if d = "yahooo.com".data then some ("yahoo.com".data)
  else if d = "yaho.com".data then some ("yahoo.com".data)
  else if d = "hotmial.com".data then some ("hotmail.com".data)
  else if d = "outlok.com".data then some ("outlook.com".data)
  else if d = "outloo.com".data then some ("outlook.com".data)
  else none

/-- The `sldTypos` table of `validateEmail`: likely-short second-level-domain
typos that should be gmail, checked only under the `.com` top-level domain. -/
def sldTypos (s : Str) : Option Str :=
  if s = "g".data then some ("gmail".data)
  else if s = "gm".data then some ("gmail".data)
  else if s = "gma".data then some ("gmail".data)
  else if s = "gmai".data then some ("gmail".data)
  else if s = "gml".data then some ("gmail".data)
  else if s = "gmal".data then some ("gmail".data)
  else none

/-- The `commonTypos` table of `validateForm` (textually identical to
`typoDomains` in the source, but a separate object there, keyed by the full
lowercased domain string taken from `email.split('@')[1]`). -/
def commonTypos (d : Str) : Option Str :=
  if d = "gamil.com".data then some ("gmail.com".data)
  else if d = "gmial.com".data then some ("gmail.com".data)
  else if d = "gmai.com".data then some ("gmail.com".data)
  else if d = "yahooo.com".data then some ("yahoo.com".data)
  else if d = "yaho.com".data then some ("yahoo.com".data)
  else if d = "hotmial.com".data then some ("hotmail.com".data)
  else if d = "outlok.com".data then some ("outlook.com".data)
  else if d = "outloo.com".data then some ("outlook.com".data)
  else none

/-- Helper for `basicRegexTest`: does `d` decompose as `mid ++ "." ++ tld`
with `mid` nonempty and `tld` made of at least two ASCII letters?  Since the
letters exclude `.`, the decomposition dot is necessarily the last dot of
`d`, so this is decided by looking at the last `.`-separated segment. -/
def tailDotLetters (d : Str) : Bool :=
  let segs := splitOnChar '.' d
  match segs.getLast? with
  | some tld =>
      decide (2 ≤ segs.length) && decide (2 ≤ tld.length) &&
        tld.all isAsciiLetter && decide (tld.length + 2 ≤ d.length)
  | none => false

/-- Model of the test of `/^[^\s@]+@[^\s@]+\.[a-zA-Z]\x7b2,\x7d$/`: the string
splits at a unique `@` into a nonempty whitespace-free local part and a
whitespace-free domain part ending in `.` followed by at least two ASCII
letters, with a nonempty middle. -/
def basicRegexTest (email : Str) : Bool :=
  match splitOnChar '@' email with
  | [l, d] =>
      decide (l ≠ []) && l.all (fun c => !(isJsSpace c)) &&
        d.all (fun c => !(isJsSpace c)) && tailDotLetters d
  | _ => false

/-- The `validateEmail` function of AddContactModal.  An empty email passes
(optional field); otherwise the basic regex shape, a local part of trimmed
length at least 2, at least two domain labels, a second-level label of length
at least 2, and the two typo tables are checked in the source's order.
(In the `[lcl, domainFull]` destructuring the source would dereference
`undefined` when the split has fewer than two parts; that is unreachable
because the regex guarantees exactly one `@`, and the embedding uses `getD`
with a default that is likewise unreachable.) -/
def validateEmail (email : Str) : Bool :=
  if email = [] then true
  else if basicRegexTest email then
    let parts0 := splitOnChar '@' email
    let lcl := parts0.getD 0 []
    let domainFull := parts0.getD 1 []
    if lcl = [] || (trimStr lcl).length < 2 then false
    else
      let parts := splitOnChar '.' (toLowerStr domainFull)
      if parts.length < 2 then false
      else
        let tld := parts.getD (parts.length - 1) []
        let sld := parts.getD (parts.length - 2) []
        if sld = [] || sld.length < 2 then false
        else if (typoDomains (sld ++ '.' :: tld)).isSome then false
        else if tld = "com".data && (sldTypos sld).isSome then false
        else true
  else false

/-- The character class `[\d\s\-\+\(\)]` of `validatePhone`. -/
def allowedPhoneChar (c : Char) : Bool :=
  c.isDigit || isJsSpace c || c = '-' || c = '+' || c = '(' || c = ')'

/-- The `validatePhone` function of AddContactModal: an empty phone passes;
otherwise every character must be in the allowed class (the regex, whose `+`
nonemptiness requirement is guaranteed by the non-empty branch) and at least
10 digits must remain after stripping non-digits. -/
def validatePhone (phone : Str) : Bool :=
  if phone = [] then true
  else phone.all allowedPhoneChar && decide (10 ≤ (phone.filter Char.isDigit).length)

/-- The modal's form state (all four controlled inputs are strings). -/
structure FormData where
  name : Str
  email : Str
  phone : Str
  avatar : Str
deriving DecidableEq

/-- The per-field error state produced by `validateForm`. -/
structure FormErrors where
  name : Option Str
  email : Option Str
  phone : Option Str
deriving DecidableEq

/-- The `validateForm` function of AddContactModal, computing the per-field
error messages.  The email branch recomputes the domain as the lowercased
`email.split('@')[1]` (the whole domain string, not the last two labels) and
proposes a correction only when that full string is a `commonTypos` key. -/
def validateForm (fd : FormData) : FormErrors :=
  { name :=
      if trimStr fd.name = [] then some ("Name is required".data)
      else if 100 < (trimStr fd.name).length then
        some ("Name must be less than 100 characters".data)
      else none
    email :=
      if fd.email = [] then none
      else if validateEmail fd.email then none
      else
        match ((splitOnChar '@' fd.email).get? 1).map toLowerStr with
        | some d =>
            if d = [] then some ("Please enter a valid email address".data)
            else
              match commonTypos d with
              | some canon =>
                  some ("Did you mean ".data ++ (splitOnChar '@' fd.email).getD 0 []
                    ++ '@' :: canon ++ "?".data)
              | none => some ("Please enter a valid email address".data)
        | none => some ("Please enter a valid email address".data)
    phone :=
      if fd.phone = [] then none
      else if validatePhone fd.phone then none
      else some ("Please enter a valid phone number".data) }

/-- Validity of the form, `Object.keys(newErrors).length === 0`: no field has an error. -/
def formIsValid (fd : FormData) : Bool :=
  let e := validateForm fd
  e.name.isNone && e.email.isNone && e.phone.isNone

/-- A contact's non-identifier fields, as committed by the modal
(`Omit<Contact, "id">`). -/
structure ContactFields where
  name : Str
  email : Option Str
  phone : Option Str
  avatar : Option Str
deriving DecidableEq

/-- The `handleSubmit` function of AddContactModal: if validation passes it
commits `name.trim()`, `email.trim() || undefined`, `phone.trim() ||
undefined` and `avatar || undefined` (avatar untrimmed); otherwise
submission is blocked (`none`). -/
def handleSubmit (fd : FormData) : Option ContactFields :=
  if formIsValid fd then
    some
      { name := trimStr fd.name
        email := if trimStr fd.email = [] then none else some (trimStr fd.email)
        phone := if trimStr fd.phone = [] then none else some (trimStr fd.phone)
        avatar := if fd.avatar = [] then none else some fd.avatar }
  else none

/-! ## Contact store (lib/api/contacts) -/

/-- A contact record. -/
structure Contact where
  id : Str
  name : Str
  email : Option Str
  phone : Option Str
  avatar : Option Str
deriving DecidableEq

/-- Spreading `fields` over a record with identifier `id`
(`\x7b ...old, ...updates \x7d` and `\x7b ...contact, id \x7d`: every
non-identifier field is replaced, the identifier is kept). -/
def applyFields (id : Str) (f : ContactFields) : Contact :=
  { id := id, name := f.name, email := f.email, phone := f.phone, avatar := f.avatar }

/-- The seed data of the mock store. -/
def mockContacts : List Contact :=
  [ { id := "1".data, name := "Sarah Johnson".data,
      email := some ("sarah.johnson@example.com".data),
      phone := some ("+1 (555) 123-4567".data), avatar := none },
    { id := "2".data, name := "Michael Chen".data,
      email := some ("michael.chen@example.com".data),
      phone := some ("+1 (555) 234-5678".data), avatar := none },
    { id := "3".data, name := "Emily Rodriguez".data,
      email := some ("emily.rodriguez@example.com".data),
      phone := some ("+1 (555) 345-6789".data), avatar := none },
    { id := "4".data, name := "David Thompson".data,
      email := some ("david.thompson@example.com".data),
      phone := some ("+1 (555) 456-7890".data), avatar := none },
    { id := "5".data, name := "Lisa Anderson".data,
      email := some ("lisa.anderson@example.com".data),
      phone := some ("+1 (555) 567-8901".data), avatar := none },
    { id := "6".data, name := "James Wilson".data,
      email := some ("james.wilson@example.com".data),
      phone := some ("+1 (555) 678-9012".data), avatar := none },
    { id := "7".data, name := "Maria Garcia".data,
      email := some ("maria.garcia@example.com".data),
      phone := some ("+1 (555) 789-0123".data), avatar := none },
    { id := "8".data, name := "Robert Martinez".data,
      email := some ("robert.martinez@example.com".data),
      phone := some ("+1 (555) 890-1234".data), avatar := none },
    { id := "9".data, name := "Jennifer Lee".data,
      email := some ("jennifer.lee@example.com".data),
      phone := some ("+1 (555) 901-2345".data), avatar := none },
    { id := "10".data, name := "Christopher Brown".data,
      email := some ("christopher.brown@example.com".data),
      phone := some ("+1 (555) 012-3456".data), avatar := none } ]

/-- Function `fetchContacts`: returns a snapshot copy (`[...mockContacts]`) of the
store, with the module-level store state made an explicit argument. -/
def fetchContacts (store : List Contact) : List Contact := store

/-- The search predicate of `searchContacts` (and, textually duplicated, of
`filteredContacts` in ContactList): case-insensitive substring match on name
and email, raw substring match on phone; an absent email or phone
contributes `false` (optional chaining yields a falsy `undefined`). -/
def matchesQuery (query : Str) (c : Contact) : Bool :=
  let lowerQuery := toLowerStr query
  containsStr (toLowerStr c.name) lowerQuery ||
    (match c.email with
     | some e => containsStr (toLowerStr e) lowerQuery
     | none => false) ||
    (match c.phone with
     | some p => containsStr p query
     | none => false)

/-- Function `searchContacts`: a blank (whitespace-only) query returns the whole
store, otherwise the store is filtered by `matchesQuery`. -/
def searchContacts (store : List Contact) (query : Str) : List Contact :=
  if trimStr query = [] then store
  else store.filter (matchesQuery query)

/-- Function `createContact`: builds `\x7b ...contact, id \x7d` with a freshly
generated identifier and appends it (`[...mockContacts, newContact]`).  The
identifier produced by `crypto.randomUUID()` is modelled as the explicit
argument `newId`; its (statistical) uniqueness becomes a hypothesis in the
theorems.  Returns the stored record and the new store state. -/
def createContact (store : List Contact) (fields : ContactFields) (newId : Str) :
    Contact × List Contact :=
  let newContact := applyFields newId fields
  (newContact, store ++ [newContact])

/-- Function `updateContact`: `findIndex` on the identifier; a miss throws "Contact
not found" leaving the store untouched, a hit rebuilds the store as
`slice(0, i) ++ [updated] ++ slice(i + 1)` — i.e. the first record whose
identifier matches is replaced in place.  The `findIndex`-plus-slices
reconstruction is rendered as the equivalent structural recursion replacing
the first match; the throw is rendered as `Except.error` paired with the
unchanged store state. -/
def updateContact (id : Str) (updates : ContactFields) :
    List Contact → Except Str Contact × List Contact
  | [] => (Except.error ("Contact not found".data), [])
  | c :: rest =>
    if c.id = id then
      (Except.ok (applyFields c.id updates), applyFields c.id updates :: rest)
    else
      let r := updateContact id updates rest
      (r.1, c :: r.2)

/-- Function `deleteContact`: `mockContacts.filter(c => c.id !== id)`. -/
def deleteContact (id : Str) (store : List Contact) : List Contact :=
  store.filter (fun c => !(decide (c.id = id)))

/-! ## View projection (ContactList.tsx) -/

/-- The sort options of ContactList. -/
inductive SortOption where
  | nameAsc
  | nameDesc
  | emailAsc
  | emailDesc
  | recent
deriving DecidableEq

/-- Function `filteredContacts`: blank query keeps everything, otherwise filter by
the (duplicated) search predicate. -/
def filteredContacts (contacts : List Contact) (searchQuery : Str) : List Contact :=
  if trimStr searchQuery = [] then contacts
  else contacts.filter (matchesQuery searchQuery)

/-- Function `sortedContacts`: a stable sort of the filtered list by the selected
comparator (`Array.prototype.sort` is stable, modelled by `List.mergeSort`);
`recent` reverses the collection order; absent emails compare as the empty
string. -/
def sortedContacts (fc : List Contact) (so : SortOption) : List Contact :=
  match so with
  | .nameAsc => List.mergeSort fc (fun a b => lexLe a.name b.name)
  | .nameDesc => List.mergeSort fc (fun a b => lexLe b.name a.name)
  | .emailAsc => List.mergeSort fc (fun a b => lexLe (a.email.getD []) (b.email.getD []))
  | .emailDesc => List.mergeSort fc (fun a b => lexLe (b.email.getD []) (a.email.getD []))
  | .recent => fc.reverse

/-- Concrete sample form state used as a witness input: a whitespace-padded
name, a valid email, a valid phone, and a non-empty avatar string. -/
def sampleForm : FormData :=
  { name := " Bob ".data, email := "bob@gmail.com".data,
    phone := "+1 (555) 123-4567".data, avatar := "x".data }

/-- The payload that `handleSubmit` commits for `sampleForm`. -/
def samplePayload : ContactFields :=
  { name := "Bob".data, email := some ("bob@gmail.com".data),
    phone := some ("+1 (555) 123-4567".data), avatar := some ("x".data) }

/-! ## Helper lemmas -/

/-- Unfolding `trimStr` through Mathlib's `rdropWhile`. -/
theorem trimStr_eq_rdropWhile (s : Str) :
    trimStr s = List.rdropWhile isJsSpace (List.dropWhile isJsSpace s) := rfl

/-- Trimming is idempotent. -/
theorem trimStr_idem (s : Str) : trimStr (trimStr s) = trimStr s := by
  rw [trimStr_eq_rdropWhile, trimStr_eq_rdropWhile]
  have hpre : List.rdropWhile isJsSpace (List.dropWhile isJsSpace s) <+:
      List.dropWhile isJsSpace s := List.rdropWhile_prefix _ _
  have hdw : List.dropWhile isJsSpace
      (List.rdropWhile isJsSpace (List.dropWhile isJsSpace s)) =
      List.rdropWhile isJsSpace (List.dropWhile isJsSpace s) := by
    rw [List.dropWhile_eq_self_iff]
    intro hl hp
    obtain ⟨u, hu⟩ := hpre
    have hl' : 0 < (List.dropWhile isJsSpace s).length := by
      rw [← hu, List.length_append]
      omega
    have hhead := List.dropWhile_get_zero_not isJsSpace s hl'
    apply hhead
    have h0 : (List.dropWhile isJsSpace s).get ⟨0, hl'⟩ =
        (List.rdropWhile isJsSpace (List.dropWhile isJsSpace s) ++ u).get
          ⟨0, by rw [hu]; exact hl'⟩ := List.get_of_eq hu.symm ⟨0, hl'⟩
    rw [h0, List.get_append 0 hl]
    exact hp
  rw [hdw, List.rdropWhile_idempotent]

/-- The two typo tables of the source are identical. -/
theorem typoDomains_eq_commonTypos (d : Str) : typoDomains d = commonTypos d := rfl

/-- Every key of the `commonTypos` table splits at its unique dot into a
second-level label of length at least 2 and a top-level label. -/
theorem commonTypos_key_split (d c : Str) (h : commonTypos d = some c) :
    ∃ s t, splitOnChar '.' d = [s, t] ∧ 2 ≤ s.length ∧ s ++ '.' :: t = d := by
  unfold commonTypos at h
  split_ifs at h with h1 h2 h3 h4 h5 h6 h7 h8
  · subst h1; exact ⟨"gamil".data, "com".data, by decide, by decide, by decide⟩
  · subst h2; exact ⟨"gmial".data, "com".data, by decide, by decide, by decide⟩
  · subst h3; exact ⟨"gmai".data, "com".data, by decide, by decide, by decide⟩
  · subst h4; exact ⟨"yahooo".data, "com".data, by decide, by decide, by decide⟩
  · subst h5; exact ⟨"yaho".data, "com".data, by decide, by decide, by decide⟩
  · subst h6; exact ⟨"hotmial".data, "com".data, by decide, by decide, by decide⟩
  · subst h7; exact ⟨"outlok".data, "com".data, by decide, by decide, by decide⟩
  · subst h8; exact ⟨"outloo".data, "com".data, by decide, by decide, by decide⟩

/-- A passing basic regex test forces the split at `@` to have exactly two
parts. -/
theorem basicRegexTest_shape (e : Str) (h : basicRegexTest e = true) :
    ∃ l d, splitOnChar '@' e = [l, d] := by
  unfold basicRegexTest at h
  rcases hsp : splitOnChar '@' e with _ | ⟨l, _ | ⟨d, _ | ⟨x, rest⟩⟩⟩ <;>
    rw [hsp] at h
  · exact absurd h (by simp)
  · exact absurd h (by simp)
  · exact ⟨l, d, rfl⟩
  · exact absurd h (by simp)

/-- When a nonempty email fails `validateEmail`, `validateForm` surfaces an
email error. -/
theorem validateForm_email_isSome (fd : FormData) (h1 : fd.email ≠ [])
    (h2 : validateEmail fd.email = false) : ((validateForm fd).email).isSome := by
  simp only [validateForm]
  rw [if_neg h1, if_neg (by simp [h2])]
  repeat' split
  all_goals rfl

/-- The comparator model `lexLe` is total. -/
theorem lexLe_total (a : Str) : ∀ b : Str, lexLe a b || lexLe b a := by
  induction a with
  | nil => intro b; simp [lexLe]
  | cons x xs ih =>
    intro b
    cases b with
    | nil => simp [lexLe]
    | cons y ys =>
      simp only [lexLe]
      by_cases h : x = y
      · subst h
        simp only [if_pos rfl]
        exact ih ys
      · have h' : y ≠ x := fun e => h e.symm
        rw [if_neg h, if_neg h']
        rcases lt_or_gt_of_ne h with hlt | hgt
        · simp [hlt]
        · simp [hgt]

/-- The comparator model `lexLe` is transitive. -/
theorem lexLe_trans (a : Str) : ∀ b c : Str, lexLe a b → lexLe b c → lexLe a c := by
  induction a with
  | nil => intro b c _ _; simp [lexLe]
  | cons x xs ih =>
    intro b c hab hbc
    cases b with
    | nil => simp [lexLe] at hab
    | cons y ys =>
      cases c with
      | nil => simp [lexLe] at hbc
      | cons z zs =>
        simp only [lexLe] at hab hbc ⊢
        by_cases hxy : x = y
        · subst hxy
          rw [if_pos rfl] at hab
          by_cases hxz : x = z
          · subst hxz
            rw [if_pos rfl] at hbc ⊢
            exact ih ys zs hab hbc
          · rw [if_neg hxz] at hbc ⊢
            exact hbc
        · rw [if_neg hxy] at hab
          by_cases hyz : y = z
          · subst hyz
            rw [if_neg hxy]
            exact hab
          · rw [if_neg hyz] at hbc
            have hxz : x < z :=
              lt_trans (of_decide_eq_true hab) (of_decide_eq_true hbc)
            rw [if_neg (ne_of_lt hxz)]
            exact decide_eq_true hxz

/-! ## Claim theorems -/

/-- Claim C5: updating a nonexistent identifier fails with the "Contact not
found" error and leaves the collection exactly as it was; updating a present
identifier (the first match — under the collection's identifier-uniqueness
invariant, the only one, captured by the hypothesis that no earlier record
carries the identifier) replaces the record's non-identifier fields in place,
preserving its position and its identifier, and returns the updated
record. -/
theorem claim5_update_spec :
    (∀ (s : List Contact) (id : Str) (upd : ContactFields),
      (∀ c ∈ s, c.id ≠ id) →
      updateContact id upd s = (Except.error ("Contact not found".data), s)) ∧
    (∀ (s₁ : List Contact) (c : Contact) (s₂ : List Contact) (id : Str)
        (upd : ContactFields),
      (∀ c' ∈ s₁, c'.id ≠ id) → c.id = id →
      updateContact id upd (s₁ ++ c :: s₂) =
        (Except.ok (applyFields c.id upd), s₁ ++ applyFields c.id upd :: s₂)) := by
  constructor
  · intro s id upd h
    induction s with
    | nil => rfl
    | cons a rest ih =>
      have ha : a.id ≠ id := h a (by simp)
      have hr := ih (fun c hc => h c (by simp [hc]))
      simp only [updateContact, if_neg ha, hr]
  · intro s₁ c s₂ id upd h hc
    induction s₁ with
    | nil =>
      simp only [List.nil_append, updateContact, if_pos hc]
    | cons a rest ih =>
      have ha : a.id ≠ id := h a (by simp)
      have hr := ih (fun c' hc' => h c' (by simp [hc']))
      simp only [List.cons_append, updateContact, if_neg ha, List.append_eq, hr]

/-- Claim C5 witness: both branches of `claim5_update_spec` at concrete
stores. -/
theorem claim5_update_spec_witness :
    updateContact ("99".data) ⟨"X".data, none, none, none⟩ mockContacts =
      (Except.error ("Contact not found".data), mockContacts) ∧
    updateContact ("2".data) ⟨"X".data, none, none, none⟩
        ([⟨"1".data, "A".data, none, none, none⟩] ++
          ⟨"2".data, "B".data, none, none, none⟩ :: []) =
      (Except.ok (applyFields ("2".data) ⟨"X".data, none, none, none⟩),
        [⟨"1".data, "A".data, none, none, none⟩] ++
          applyFields ("2".data) ⟨"X".data, none, none, none⟩ :: []) :=
  ⟨claim5_update_spec.1 mockContacts ("99".data) ⟨"X".data, none, none, none⟩
      (by decide),
    claim5_update_spec.2 [⟨"1".data, "A".data, none, none, none⟩]
      ⟨"2".data, "B".data, none, none, none⟩ [] ("2".data)
      ⟨"X".data, none, none, none⟩ (by decide) (by decide)⟩

/-- Claim C6: `deleteContact` removes exactly the records carrying the given
identifier (preserving everything else), deleting an absent identifier is a
silent no-op, and deleting twice equals deleting once. -/
theorem claim6_delete_spec :
    (∀ (id : Str) (s : List Contact),
      deleteContact id (deleteContact id s) = deleteContact id s) ∧
    (∀ (id : Str) (s : List Contact),
      (∀ c ∈ s, c.id ≠ id) → deleteContact id s = s) ∧
    (∀ (id : Str) (s : List Contact) (c : Contact),
      c ∈ deleteContact id s ↔ c ∈ s ∧ c.id ≠ id) := by
  refine ⟨?_, ?_, ?_⟩
  · intro id s
    simp [deleteContact, List.filter_filter]
  · intro id s h
    rw [deleteContact, List.filter_eq_self]
    intro a ha
    simpa using h a ha
  · intro id s c
    simp [deleteContact]

/-- Claim C6 witness: deleting an identifier that is absent from a concrete
one-record store leaves it unchanged, twice-deleting a present identifier
equals once-deleting it, and membership after a delete is as described. -/
theorem claim6_delete_spec_witness :
    deleteContact ("9".data) [⟨"1".data, "A".data, none, none, none⟩] =
      [⟨"1".data, "A".data, none, none, none⟩] ∧
    deleteContact ("1".data)
        (deleteContact ("1".data) [⟨"1".data, "A".data, none, none, none⟩]) =
      deleteContact ("1".data) [⟨"1".data, "A".data, none, none, none⟩] ∧
    (⟨"1".data, "A".data, none, none, none⟩ ∈
        deleteContact ("9".data) [⟨"1".data, "A".data, none, none, none⟩] ↔
      (⟨"1".data, "A".data, none, none, none⟩ : Contact) ∈
          [(⟨"1".data, "A".data, none, none, none⟩ : Contact)] ∧
        ("1".data : Str) ≠ "9".data) :=
  ⟨claim6_delete_spec.2.1 ("9".data) [⟨"1".data, "A".data, none, none, none⟩]
      (by decide),
    claim6_delete_spec.1 ("1".data) [⟨"1".data, "A".data, none, none, none⟩],
    claim6_delete_spec.2.2 ("9".data) [⟨"1".data, "A".data, none, none, none⟩]
      ⟨"1".data, "A".data, none, none, none⟩⟩

/-- Claim C7: provided the generated identifier (modelling
`crypto.randomUUID()`) is not already used, `createContact` appends the new
record at the end of the collection, the returned record carries the new
identifier, that identifier differs from every existing record's identifier,
and a `fetchContacts` snapshot taken afterwards contains the new record. -/
theorem claim7_create_spec :
    ∀ (s : List Contact) (fields : ContactFields) (newId : Str),
      newId ∉ s.map Contact.id →
      (createContact s fields newId).2 = s ++ [(createContact s fields newId).1] ∧
      (createContact s fields newId).1.id = newId ∧
      (∀ c ∈ s, c.id ≠ (createContact s fields newId).1.id) ∧
      (createContact s fields newId).1 ∈ fetchContacts (createContact s fields newId).2 := by
  intro s fields newId h
  refine ⟨rfl, rfl, ?_, ?_⟩
  · intro c hc heq
    exact h (List.mem_map.mpr ⟨c, hc, heq⟩)
  · show _ ∈ s ++ [_]
    simp only [List.mem_append, List.mem_singleton]
    exact Or.inr rfl

/-- Claim C7 witness: creating a record with the fresh identifier "11" on the
seed store. -/
theorem claim7_create_spec_witness :
    (createContact mockContacts ⟨"Zoe".data, none, none, none⟩ ("11".data)).2 =
      mockContacts ++ [(createContact mockContacts ⟨"Zoe".data, none, none, none⟩ ("11".data)).1] ∧
    (createContact mockContacts ⟨"Zoe".data, none, none, none⟩ ("11".data)).1.id = "11".data ∧
    (∀ c ∈ mockContacts,
      c.id ≠ (createContact mockContacts ⟨"Zoe".data, none, none, none⟩ ("11".data)).1.id) ∧
    (createContact mockContacts ⟨"Zoe".data, none, none, none⟩ ("11".data)).1 ∈
      fetchContacts (createContact mockContacts ⟨"Zoe".data, none, none, none⟩ ("11".data)).2 :=
  claim7_create_spec mockContacts ⟨"Zoe".data, none, none, none⟩ ("11".data) (by decide)

/-- Claim C8: a blank (empty or whitespace-only) query returns the store
unfiltered; a non-blank query returns, in collection order (a sublist of the
store), exactly the contacts whose name or email contains the query
case-insensitively or whose phone contains it verbatim; and on the seed
store the query "chen" returns exactly the Michael Chen record. -/
theorem claim8_search_spec :
    (∀ (s : List Contact) (q : Str), trimStr q = [] → searchContacts s q = s) ∧
    (∀ (s : List Contact) (q : Str), trimStr q ≠ [] →
      (searchContacts s q).Sublist s ∧
      ∀ c, c ∈ searchContacts s q ↔
        c ∈ s ∧ (containsStr (toLowerStr c.name) (toLowerStr q) = true ∨
          (∃ e, c.email = some e ∧ containsStr (toLowerStr e) (toLowerStr q) = true) ∨
          (∃ p, c.phone = some p ∧ containsStr p q = true))) ∧
    searchContacts mockContacts ("chen".data) =
      [{ id := "2".data, name := "Michael Chen".data,
         email := some ("michael.chen@example.com".data),
         phone := some ("+1 (555) 234-5678".data), avatar := none }] := by
  refine ⟨?_, ?_, by decide⟩
  · intro s q h
    simp [searchContacts, h]
  · intro s q h
    rw [searchContacts, if_neg h]
    refine ⟨List.filter_sublist s, ?_⟩
    intro c
    rw [List.mem_filter]
    constructor
    · rintro ⟨hm, hq⟩
      refine ⟨hm, ?_⟩
      simp only [matchesQuery, Bool.or_eq_true] at hq
      rcases hq with (hn | he) | hp
      · exact Or.inl hn
      · rcases hce : c.email with _ | e
        · rw [hce] at he; exact absurd he (by simp)
        · rw [hce] at he; exact Or.inr (Or.inl ⟨e, rfl, he⟩)
      · rcases hcp : c.phone with _ | p
        · rw [hcp] at hp; exact absurd hp (by simp)
        · rw [hcp] at hp; exact Or.inr (Or.inr ⟨p, rfl, hp⟩)
    · rintro ⟨hm, hq⟩
      refine ⟨hm, ?_⟩
      simp only [matchesQuery, Bool.or_eq_true]
      rcases hq with hn | ⟨e, hce, he⟩ | ⟨p, hcp, hp⟩
      · exact Or.inl (Or.inl hn)
      · rw [hce]; exact Or.inl (Or.inr he)
      · rw [hcp]; exact Or.inr hp

/-- Claim C8 witness: the blank-query and non-blank-query branches of
`claim8_search_spec` at concrete inputs. -/
theorem claim8_search_spec_witness :
    searchContacts mockContacts (" ".data) = mockContacts ∧
    (searchContacts mockContacts ("chen".data)).Sublist mockContacts :=
  ⟨claim8_search_spec.1 mockContacts (" ".data) (by decide),
    (claim8_search_spec.2.1 mockContacts ("chen".data) (by decide)).1⟩

/-- Claim C9: projecting with a blank query under `name-asc` returns all the
contacts (a permutation of the collection) in ascending lexicographic name
order, and a non-blank query matching no contact projects to the empty
sequence under every sort key. -/
theorem claim9_projection_spec :
    (∀ (contacts : List Contact) (q : Str), trimStr q = [] →
      (sortedContacts (filteredContacts contacts q) SortOption.nameAsc).Perm contacts ∧
      (sortedContacts (filteredContacts contacts q) SortOption.nameAsc).Pairwise
        (fun a b => lexLe a.name b.name = true)) ∧
    (∀ (contacts : List Contact) (q : Str) (so : SortOption), trimStr q ≠ [] →
      (∀ c ∈ contacts, matchesQuery q c = false) →
      sortedContacts (filteredContacts contacts q) so = []) := by
  constructor
  · intro contacts q h
    rw [filteredContacts, if_pos h]
    constructor
    · exact List.mergeSort_perm contacts _
    · exact List.sorted_mergeSort
        (fun a b c hab hbc => lexLe_trans a.name b.name c.name hab hbc)
        (fun a b => lexLe_total a.name b.name) contacts
  · intro contacts q so h hnone
    rw [filteredContacts, if_neg h]
    have hnil : contacts.filter (matchesQuery q) = [] := by
      rw [List.filter_eq_nil_iff]
      intro a ha
      simp [hnone a ha]
    rw [hnil]
    cases so <;> simp [sortedContacts]

/-- Claim C9 witness: both branches of `claim9_projection_spec` at concrete
inputs (a two-record collection with out-of-order names, and a query
matching nothing). -/
theorem claim9_projection_spec_witness :
    ((sortedContacts
        (filteredContacts [⟨"1".data, "Bob".data, none, none, none⟩,
          ⟨"2".data, "Amy".data, none, none, none⟩] []) SortOption.nameAsc).Perm
      [⟨"1".data, "Bob".data, none, none, none⟩,
        ⟨"2".data, "Amy".data, none, none, none⟩] ∧
      (sortedContacts
        (filteredContacts [⟨"1".data, "Bob".data, none, none, none⟩,
          ⟨"2".data, "Amy".data, none, none, none⟩] []) SortOption.nameAsc).Pairwise
        (fun a b => lexLe a.name b.name = true)) ∧
    sortedContacts
      (filteredContacts [⟨"1".data, "Bob".data, none, none, none⟩]
        ("zzz".data)) SortOption.recent = [] :=
  ⟨claim9_projection_spec.1
      [⟨"1".data, "Bob".data, none, none, none⟩,
        ⟨"2".data, "Amy".data, none, none, none⟩] [] (by decide),
    claim9_projection_spec.2 [⟨"1".data, "Bob".data, none, none, none⟩]
      ("zzz".data) SortOption.recent (by decide) (by decide)⟩

/-- Claim C3 counterexample: a name of raw length 101 (41 letters followed
by 60 trailing spaces) exceeds 100 characters, yet the name-length check is
applied to the trimmed name, so no name error is produced and submission
goes through instead of being blocked. -/
theorem claim3_counterexample :
    100 < (List.replicate 41 'a' ++ List.replicate 60 ' ').length ∧
    (validateForm { name := List.replicate 41 'a' ++ List.replicate 60 ' ',
                    email := [], phone := [], avatar := [] }).name = none ∧
    (handleSubmit { name := List.replicate 41 'a' ++ List.replicate 60 ' ',
                    email := [], phone := [], avatar := [] }).isSome := by
  refine ⟨by decide, by decide, by decide⟩

/-- Claim C3 (amended): a name blank after trimming fails with the Required
message and blocks submission; a name whose trimmed length exceeds 100 fails
with the TooLong message and blocks submission (the raw length, trailing or
leading whitespace included, is not what is checked). -/
theorem claim3_amended :
    ∀ fd : FormData,
      (trimStr fd.name = [] →
        (validateForm fd).name = some ("Name is required".data) ∧
          handleSubmit fd = none) ∧
      (trimStr fd.name ≠ [] → 100 < (trimStr fd.name).length →
        (validateForm fd).name = some ("Name must be less than 100 characters".data) ∧
          handleSubmit fd = none) := by
  intro fd
  constructor
  · intro h
    have hname : (validateForm fd).name = some ("Name is required".data) := by
      simp only [validateForm, if_pos h]
    refine ⟨hname, ?_⟩
    rw [handleSubmit, if_neg]
    simp [formIsValid, hname]
  · intro h hlen
    have hname : (validateForm fd).name =
        some ("Name must be less than 100 characters".data) := by
      simp only [validateForm, if_neg h, if_pos hlen]
    refine ⟨hname, ?_⟩
    rw [handleSubmit, if_neg]
    simp [formIsValid, hname]

/-- Claim C3 (amended) witness: a blank name and an overlong (101 letters)
name, both instantiating `claim3_amended`. -/
theorem claim3_amended_witness :
    ((validateForm { name := " ".data, email := [], phone := [], avatar := [] }).name =
        some ("Name is required".data) ∧
      handleSubmit { name := " ".data, email := [], phone := [], avatar := [] } = none) ∧
    ((validateForm { name := List.replicate 101 'a',
                     email := [], phone := [], avatar := [] }).name =
        some ("Name must be less than 100 characters".data) ∧
      handleSubmit { name := List.replicate 101 'a',
                     email := [], phone := [], avatar := [] } = none) :=
  ⟨(claim3_amended { name := " ".data, email := [], phone := [], avatar := [] }).1
      (by decide),
    (claim3_amended { name := List.replicate 101 'a',
                      email := [], phone := [], avatar := [] }).2 (by decide) (by decide)⟩

/-- Claim C4: an absent (empty) phone passes and produces no error; a phone
containing a character outside the allowed class fails validation; a
nonempty phone of allowed characters with fewer than 10 digits after
stripping non-digits fails validation; and a nonempty failing phone
surfaces the phone error message (the source reports a single generic
message for both failure kinds). -/
theorem claim4_phone_spec :
    validatePhone [] = true ∧
    (∀ fd : FormData, fd.phone = [] → (validateForm fd).phone = none) ∧
    (∀ (p : Str) (c : Char), c ∈ p → allowedPhoneChar c = false →
      validatePhone p = false) ∧
    (∀ p : Str, p ≠ [] → p.all allowedPhoneChar = true →
      (p.filter Char.isDigit).length < 10 → validatePhone p = false) ∧
    (∀ fd : FormData, fd.phone ≠ [] → validatePhone fd.phone = false →
      (validateForm fd).phone = some ("Please enter a valid phone number".data)) := by
  refine ⟨rfl, ?_, ?_, ?_, ?_⟩
  · intro fd h
    simp only [validateForm, if_pos h]
  · intro p c hc hbad
    have hne : p ≠ [] := by rintro rfl; exact absurd hc (by simp)
    rw [validatePhone, if_neg hne]
    have : p.all allowedPhoneChar = false := by
      rw [Bool.eq_false_iff]
      intro hall
      rw [List.all_eq_true] at hall
      rw [hall c hc] at hbad
      exact Bool.true_eq_false.mp hbad
    simp [this]
  · intro p hne hall hlen
    rw [validatePhone, if_neg hne, hall]
    simp
    omega
  · intro fd hne hbad
    simp only [validateForm, if_neg hne]
    rw [if_neg (show ¬validatePhone fd.phone = true by simp [hbad])]

/-- Claim C4 witness: all branches of `claim4_phone_spec` at concrete
inputs (a letter-containing phone, a too-short all-digit phone, and the
relevant form states). -/
theorem claim4_phone_spec_witness :
    (validateForm { name := "Bob".data, email := [], phone := [], avatar := [] }).phone =
      none ∧
    validatePhone ("555-HELLO".data) = false ∧
    validatePhone ("123456789".data) = false ∧
    (validateForm { name := "Bob".data, email := [], phone := "123456789".data,
                    avatar := [] }).phone = some ("Please enter a valid phone number".data) :=
  ⟨claim4_phone_spec.2.1 { name := "Bob".data, email := [], phone := [], avatar := [] }
      rfl,
    claim4_phone_spec.2.2.1 ("555-HELLO".data) 'H' (by decide) (by decide),
    claim4_phone_spec.2.2.2.1 ("123456789".data) (by decide) (by decide) (by decide),
    claim4_phone_spec.2.2.2.2 { name := "Bob".data, email := [],
                                phone := "123456789".data, avatar := [] }
      (by decide) (by decide)⟩

/-- Claim C10 counterexample: a whitespace-only avatar string survives a
successful submit unchanged — the avatar is passed through untrimmed, so a
whitespace-padded (blank) optional field does reach the committed payload. -/
theorem claim10_counterexample :
    handleSubmit { name := "Bob".data, email := [], phone := [], avatar := " ".data } =
      some { name := "Bob".data, email := none, phone := none,
             avatar := some (" ".data) } ∧
    trimStr (" ".data) = [] := by
  refine ⟨by decide, by decide⟩

/-- Claim C10 (amended): every payload committed by a successful submit has
a trimmed non-empty name; its email and phone are either absent or
non-empty trimmed strings; its avatar is either absent or a non-empty
string, but it is passed through untrimmed, so a whitespace-only avatar
string would be committed as-is. -/
theorem claim10_amended :
    ∀ (fd : FormData) (payload : ContactFields), handleSubmit fd = some payload →
      payload.name = trimStr payload.name ∧ payload.name ≠ [] ∧
      (∀ e, payload.email = some e → e ≠ [] ∧ trimStr e = e) ∧
      (∀ p, payload.phone = some p → p ≠ [] ∧ trimStr p = p) ∧
      (∀ a, payload.avatar = some a → a ≠ []) := by
  intro fd payload h
  rw [handleSubmit] at h
  split at h
  case isFalse => exact absurd h (by simp)
  case isTrue hvalid =>
    have hname : (validateForm fd).name = none := by
      rw [formIsValid] at hvalid
      simp only [Bool.and_eq_true, Option.isNone_iff_eq_none] at hvalid
      exact hvalid.1.1
    have htrim : trimStr fd.name ≠ [] := by
      intro he
      rw [validateForm] at hname
      simp only [if_pos he] at hname
      exact Option.noConfusion hname
    rw [Option.some_inj] at h
    subst h
    refine ⟨(trimStr_idem fd.name).symm, htrim, ?_, ?_, ?_⟩
    · intro e he
      simp only at he
      split at he
      · exact absurd he (by simp)
      case isFalse hne =>
        rw [Option.some_inj] at he
        subst he
        exact ⟨hne, trimStr_idem fd.email⟩
    · intro p hp
      simp only at hp
      split at hp
      · exact absurd hp (by simp)
      case isFalse hne =>
        rw [Option.some_inj] at hp
        subst hp
        exact ⟨hne, trimStr_idem fd.phone⟩
    · intro a ha
      simp only at ha
      split at ha
      · exact absurd ha (by simp)
      case isFalse hne =>
        rw [Option.some_inj] at ha
        subst ha
        exact hne

/-- Claim C10 (amended) witness: a padded name, a valid email and phone and
a non-empty avatar, instantiating `claim10_amended` on the committed
payload. -/
theorem claim10_amended_witness :
    samplePayload.name = trimStr samplePayload.name ∧
    samplePayload.name ≠ [] ∧
    (∀ e, samplePayload.email = some e → e ≠ [] ∧ trimStr e = e) ∧
    (∀ p, samplePayload.phone = some p → p ≠ [] ∧ trimStr p = p) ∧
    (∀ a, samplePayload.avatar = some a → a ≠ []) :=
  claim10_amended sampleForm samplePayload (by decide)

/-- Claim C2: for every present (nonempty) email whose domain — the
lowercased segment after the `@`, split into dot-separated labels — has at
least two labels and a second-level (second-to-last) label shorter than 2
characters, email validation fails, whatever the top-level label is, and the
form surfaces an email error. -/
theorem claim2_short_sld_rejected :
    ∀ email : Str, email ≠ [] →
      2 ≤ (splitOnChar '.' (toLowerStr ((splitOnChar '@' email).getD 1 []))).length →
      ((splitOnChar '.' (toLowerStr ((splitOnChar '@' email).getD 1 []))).getD
        ((splitOnChar '.' (toLowerStr ((splitOnChar '@' email).getD 1 []))).length - 2)
        []).length < 2 →
      validateEmail email = false ∧
      ∀ fd : FormData, fd.email = email → ((validateForm fd).email).isSome := by
  intro email hne hlen hsld
  have hv : validateEmail email = false := by
    rw [validateEmail, if_neg hne]
    split
    case isFalse => rfl
    case isTrue hreg =>
      dsimp only
      split
      case isTrue => rfl
      case isFalse =>
        rw [if_neg (by omega)]
        generalize hgen :
          (splitOnChar '.' (toLowerStr ((splitOnChar '@' email).getD 1 []))).getD
            ((splitOnChar '.' (toLowerStr ((splitOnChar '@' email).getD 1 []))).length - 2)
            [] = sld at hsld ⊢
        rw [if_pos (show (decide (sld = []) || decide (sld.length < 2)) = true by
          simp [hsld])]
  refine ⟨hv, ?_⟩
  intro fd hfd
  exact validateForm_email_isSome fd (by rw [hfd]; exact hne) (by rw [hfd]; exact hv)

/-- Claim C2 witness: the email "ab@g.com" (second-level label "g") fails
validation and produces an email error. -/
theorem claim2_short_sld_rejected_witness :
    validateEmail ("ab@g.com".data) = false ∧
    ((validateForm { name := "Bob".data, email := "ab@g.com".data,
                     phone := [], avatar := [] }).email).isSome := by
  have h := claim2_short_sld_rejected ("ab@g.com".data) (by decide) (by decide)
    (by decide)
  exact ⟨h.1, h.2 { name := "Bob".data, email := "ab@g.com".data,
                    phone := [], avatar := [] } rfl⟩

/-- Claim C1 counterexample: the email "ab@mail.gamil.com" has second-level
label "gamil" and top-level label "com", so its last two domain labels form
the typo-table key "gamil.com" and — as the claim states — validation fails;
but the claim also requires the error message to propose "ab@gmail.com",
while the source's proposal lookup keys on the full domain string
"mail.gamil.com", misses the table, and surfaces the generic message
instead. -/
theorem claim1_counterexample :
    typoDomains ("gamil.com".data) = some ("gmail.com".data) ∧
    splitOnChar '.' (toLowerStr ((splitOnChar '@' ("ab@mail.gamil.com".data)).getD 1 []))
      = ["mail".data, "gamil".data, "com".data] ∧
    validateEmail ("ab@mail.gamil.com".data) = false ∧
    (validateForm { name := "Bob".data, email := "ab@mail.gamil.com".data,
                    phone := [], avatar := [] }).email =
      some ("Please enter a valid email address".data) ∧
    ("Please enter a valid email address".data : Str) ≠
      "Did you mean ".data ++ "ab".data ++ '@' :: "gmail.com".data ++ "?".data := by
  refine ⟨by decide, by decide, by decide, by decide, by decide⟩

/-- Claim C1 (amended): for every present email whose full lowercased domain
string — the entire segment after the `@`, i.e. `email.split('@')[1]`
lowercased — is a key of the typo table, validation fails and the per-field
email error proposes the corrected address built from the original local
part and the canonical domain.  (The original claim keyed the match on the
second-level plus top-level labels alone; the proposal is only produced when
the whole domain string is a table key.) -/
theorem claim1_amended :
    ∀ (fd : FormData) (d canon : Str),
      fd.email ≠ [] →
      ((splitOnChar '@' fd.email).get? 1).map toLowerStr = some d →
      commonTypos d = some canon →
      validateEmail fd.email = false ∧
      (validateForm fd).email =
        some ("Did you mean ".data ++ (splitOnChar '@' fd.email).getD 0 [] ++
          '@' :: canon ++ "?".data) := by
  intro fd d canon hne hd hc
  obtain ⟨s, t, hsplit, hslen, hjoin⟩ := commonTypos_key_split d canon hc
  have hdne : d ≠ [] := by
    rw [← hjoin]
    rcases s with _ | ⟨x, xs⟩ <;> simp
  have hv : validateEmail fd.email = false := by
    rw [validateEmail, if_neg hne]
    split
    case isFalse => rfl
    case isTrue hreg =>
      obtain ⟨l, d0, hsp⟩ := basicRegexTest_shape fd.email hreg
      have hd0 : (splitOnChar '@' fd.email).getD 1 [] = d0 := by rw [hsp]; rfl
      have hld : toLowerStr d0 = d := by
        rw [hsp] at hd
        simpa using hd
      dsimp only
      rw [hd0, hld, hsplit]
      split
      case isTrue => rfl
      case isFalse =>
        rw [if_neg (by simp)]
        have hs0 : ([s, t] : List Str).getD (([s, t] : List Str).length - 2) [] = s := rfl
        have ht0 : ([s, t] : List Str).getD (([s, t] : List Str).length - 1) [] = t := rfl
        rw [hs0, ht0]
        have hsne : s ≠ [] := by
          intro h
          rw [h] at hslen
          simp at hslen
        rw [if_neg (show ¬(decide (s = []) || decide (s.length < 2)) = true by
          simp only [Bool.or_eq_true, decide_eq_true_eq]
          push_neg
          exact ⟨hsne, by omega⟩)]
        rw [hjoin, (typoDomains_eq_commonTypos d).trans hc]
        rfl
  refine ⟨hv, ?_⟩
  simp only [validateForm]
  rw [if_neg hne, if_neg (show ¬validateEmail fd.email = true by simp [hv])]
  rw [hd]
  dsimp only
  rw [if_neg hdne, hc]

/-- Claim C1 (amended) witness: the uppercase email "AB@GAMIL.COM" fails
validation and the error proposes "AB@gmail.com" (original local part kept,
canonical domain substituted). -/
theorem claim1_amended_witness :
    validateEmail ("AB@GAMIL.COM".data) = false ∧
    (validateForm { name := "Bob".data, email := "AB@GAMIL.COM".data,
                    phone := [], avatar := [] }).email =
      some ("Did you mean ".data ++
        (splitOnChar '@' (("AB@GAMIL.COM".data : Str))).getD 0 [] ++
        '@' :: "gmail.com".data ++ "?".data) :=
  claim1_amended
    { name := "Bob".data, email := "AB@GAMIL.COM".data, phone := [], avatar := [] }
    ("gamil.com".data) ("gmail.com".data) (by decide) (by decide) (by decide)

end ContactHub
